import Mathlib

/-!
Verification of the notepad repository's sample program
(`src/test-files/test-file.py`) against its specification.

The file defines four independent symbols: a greeting function `greet`, a
mutable `Calculator` class with chained `add` and `subtract` methods, a
`multiply` lambda, and an async `fetch_data` function, plus a demonstration
entry point.  Each is embedded shallowly below:

* pure Python functions become Lean functions (Python `int` is unbounded,
  so it is embedded as `Int`; `str` as `String`);
* object identity of the calculator (methods `return self`) is captured by
  a heap model mapping references to calculator states;
* non-raising straight-line bodies are additionally embedded in the
  `Except` monad so "no error branch is reachable" is a statable property;
* `fetch_data` is embedded over an abstract session collaborator whose
  steps may fail, together with an event trace recording the acquisition
  and release of its two scoped resources (`async with` releases on every
  exit path, including when the body raises).
-/

/-- Embedding of `greet`: builds the f-string `f"Hello, {name}!"` into a
local variable `message` and returns it. -/
def greet (name : String) : String :=
  let message := "Hello, " ++ name ++ "!"
  message

/-- State of a `Calculator` object: the single numeric field `result`. -/
structure Calculator where
  result : Int
deriving Repr, DecidableEq

/-- Embedding of `Calculator.__init__`: `self.result = 0`. -/
def Calculator.init : Calculator :=
  { result := 0 }

/-- Embedding of the field assignment performed by `Calculator.add`:
`self.result = a + b`.  The resulting state is both the mutated object's
state and the state of the value returned by `return self`. -/
def Calculator.add (c : Calculator) (a b : Int) : Calculator :=
  { c with result := a + b }

/-- Embedding of the field assignment performed by `Calculator.subtract`:
`self.result = a - b`. -/
def Calculator.subtract (c : Calculator) (a b : Int) : Calculator :=
  { c with result := a - b }

/-- Embedding of the lambda `multiply = lambda a, b: a * b`. -/
def multiply : Int → Int → Int :=
  fun a b => a * b

/-- The two mutating operations of the calculator, as data, so that
arbitrary call sequences can be stated. -/
inductive CalcOp where
  | add (a b : Int)
  | subtract (a b : Int)
deriving Repr, DecidableEq

/-- Apply one calculator operation to a calculator state. -/
def CalcOp.apply (c : Calculator) : CalcOp → Calculator
  | .add a b => c.add a b
  | .subtract a b => c.subtract a b

/-- The value an operation stores into `result` (what "result reflects the
last operation applied" means for each operation). -/
def CalcOp.value : CalcOp → Int
  | .add a b => a + b
  | .subtract a b => a - b

/-- Run a sequence of calculator operations left to right. -/
def runOps (c : Calculator) (ops : List CalcOp) : Calculator :=
  ops.foldl CalcOp.apply c

/-- Object references, for modelling Python object identity. -/
abbrev Ref := Nat

/-- A heap mapping references to calculator states. -/
abbrev Heap := Ref → Calculator

/-- Overwrite the object stored at reference `r`. -/
def Heap.update (h : Heap) (r : Ref) (c : Calculator) : Heap :=
  fun x => if x = r then c else h x

/-- Heap-level embedding of `Calculator.add`: mutate the object at `r` in
place and return the reference `r` itself (`return self`). -/
def Calculator.addM (h : Heap) (r : Ref) (a b : Int) : Heap × Ref :=
  (h.update r ((h r).add a b), r)

/-- Heap-level embedding of `Calculator.subtract`: mutate the object at `r`
in place and return the reference `r` itself (`return self`). -/
def Calculator.subtractM (h : Heap) (r : Ref) (a b : Int) : Heap × Ref :=
  (h.update r ((h r).subtract a b), r)

/-- Embedding of the `if __name__ == "__main__":` block: construct a fresh
calculator, print `greet("World")`, then print `calc.add(5, 3).result`.
Returns the final calculator state and the list of printed lines. -/
def pyMain : Calculator × List String :=
  let c0 := Calculator.init
  let line1 := greet "World"
  let c1 := c0.add 5 3
  let line2 := toString c1.result
  (c1, [line1, line2])

/-- Exception-aware embedding of `greet`: every step of the body sequenced
in `Except`.  String formatting of a `str` value raises nothing, so no step
introduces an error branch. -/
def greetE (name : String) : Except String String := do
  let message := "Hello, " ++ name ++ "!"
  pure message

/-- Exception-aware embedding of `Calculator.add`: integer addition on
Python's unbounded ints raises nothing, so no step introduces an error
branch. -/
def Calculator.addE (c : Calculator) (a b : Int) : Except String Calculator := do
  let c2 := { c with result := a + b }
  pure c2

/-- Exception-aware embedding of `Calculator.subtract`. -/
def Calculator.subtractE (c : Calculator) (a b : Int) : Except String Calculator := do
  let c2 := { c with result := a - b }
  pure c2

/-- Exception-aware embedding of the `multiply` lambda. -/
def multiplyE (a b : Int) : Except String Int := do
  pure (a * b)

/-- Resource events of `fetch_data`: acquisition and release of the scoped
network session and of the scoped response handle. -/
inductive Ev where
  | openSession
  | closeSession
  | openResponse
  | closeResponse
deriving Repr, DecidableEq, BEq

/-- Semantics of a Python `async with` block: acquire the resource (if
acquisition fails, nothing was opened), run the body, and release the
resource on every exit path — whether the body returned normally or
raised.  Returns the body's outcome and the trace of resource events. -/
def withScoped {ε α β : Type} (opening closing : Ev)
    (acquire : Except ε α) (body : α → Except ε β × List Ev) :
    Except ε β × List Ev :=
  match acquire with
  | .error e => (.error e, [])
  | .ok a =>
    match body a with
    | (r, evs) => (r, opening :: (evs ++ [closing]))

/-- The response handle returned by `session.get(url)`: its `json()` method
parses the body into a generic key-value structure `κ`, or fails. -/
structure Response (ε κ : Type) where
  json : Except ε κ

/-- The abstract session collaborator (`aiohttp.ClientSession`): `get`
issues a request and yields a response handle, or fails. -/
structure Session (ε κ : Type) where
  get : String → Except ε (Response ε κ)

/-- Embedding of `fetch_data` with its resource-event trace: open a scoped
session, issue `session.get(url)` in a scoped block, and return
`response.json()`.  Failures of any step are not caught. -/
def fetch_dataT {ε κ : Type} (mkSession : Except ε (Session ε κ))
    (url : String) : Except ε κ × List Ev :=
  withScoped .openSession .closeSession mkSession (fun session =>
    withScoped .openResponse .closeResponse (session.get url) (fun response =>
      (response.json, [])))

/-- Embedding of `fetch_data`: the value (or propagated failure) of the
body, forgetting the resource trace. -/
def fetch_data {ε κ : Type} (mkSession : Except ε (Session ε κ))
    (url : String) : Except ε κ :=
  (fetch_dataT mkSession url).1

/-- C1: the calculator's `result` is overwritten, not accumulated: after
`add a b` then `subtract c d` the value is `c - d` regardless of the prior
state, and after any sequence of operations ending in `op`, `result` equals
the value of `op` alone. -/
theorem calc_result_overwritten (st : Calculator) (a b c d : Int) :
    ((st.add a b).subtract c d).result = c - d ∧
    ∀ (ops : List CalcOp) (op : CalcOp),
      (runOps st (ops ++ [op])).result = op.value := by
  constructor
  · rfl
  · intro ops op
    rw [runOps, List.foldl_append]
    cases op <;> rfl

/-- C2: `greet name` is exactly `"Hello, " ++ name ++ "!"`, and in
particular `greet "World" = "Hello, World!"`. -/
theorem greet_spec (name : String) :
    greet name = "Hello, " ++ name ++ "!" ∧ greet "World" = "Hello, World!" :=
  ⟨rfl, rfl⟩

/-- C3: `multiply a b = a * b` for all integers, and in particular
`multiply 3 4 = 12`. -/
theorem multiply_spec (a b : Int) :
    multiply a b = a * b ∧ multiply 3 4 = 12 :=
  ⟨rfl, rfl⟩

/-- C4: a freshly constructed calculator is zero-initialized. -/
theorem calc_init_zero : Calculator.init.result = 0 :=
  rfl

/-- C5: both mutating operations return the very reference they were
invoked on (not a copy), and the mutation is visible through the original
reference. -/
theorem calc_methods_return_self (h : Heap) (r : Ref) (a b : Int) :
    (Calculator.addM h r a b).2 = r ∧
    (Calculator.subtractM h r a b).2 = r ∧
    ((Calculator.addM h r a b).1 r).result = a + b ∧
    ((Calculator.subtractM h r a b).1 r).result = a - b := by
  refine ⟨rfl, rfl, ?_, ?_⟩ <;>
    simp [Calculator.addM, Calculator.subtractM, Heap.update,
      Calculator.add, Calculator.subtract]

/-- C6: on a fresh holder `add 5 3` leaves the value 8, and the
demonstration entry point prints the greeting line followed by "8". -/
theorem main_scenario :
    (Calculator.init.add 5 3).result = 8 ∧
    pyMain.2 = ["Hello, World!", "8"] := by
  refine ⟨rfl, ?_⟩
  decide

/-- C7: no error branch is reachable in the greeting, the two calculator
operations, or the product: in the exception-aware embedding every input
yields an `ok` result. -/
theorem ops_no_error (name : String) (c : Calculator) (a b : Int) :
    (∃ s, greetE name = .ok s) ∧
    (∃ d, c.addE a b = .ok d) ∧
    (∃ d, c.subtractE a b = .ok d) ∧
    (∃ p, multiplyE a b = .ok p) :=
  ⟨⟨_, rfl⟩, ⟨_, rfl⟩, ⟨_, rfl⟩, ⟨_, rfl⟩⟩

/-- C8: `fetch_data` neither catches nor classifies failures: a failure of
session construction, of the request, or of body parsing is propagated
unmodified, and when every step succeeds the parsed body is returned. -/
theorem fetch_data_propagates {ε κ : Type}
    (mkSession : Except ε (Session ε κ)) (url : String) :
    (∀ e, mkSession = .error e → fetch_data mkSession url = .error e) ∧
    (∀ s e, mkSession = .ok s → s.get url = .error e →
      fetch_data mkSession url = .error e) ∧
    (∀ s r e, mkSession = .ok s → s.get url = .ok r → r.json = .error e →
      fetch_data mkSession url = .error e) ∧
    (∀ s r v, mkSession = .ok s → s.get url = .ok r → r.json = .ok v →
      fetch_data mkSession url = .ok v) := by
  refine ⟨?_, ?_, ?_, ?_⟩
  · intro e he
    simp [fetch_data, fetch_dataT, withScoped, he]
  · intro s e hs hg
    simp [fetch_data, fetch_dataT, withScoped, hs, hg]
  · intro s r e hs hg hj
    simp [fetch_data, fetch_dataT, withScoped, hs, hg, hj]
  · intro s r v hs hg hj
    simp [fetch_data, fetch_dataT, withScoped, hs, hg, hj]

/-- Witness for C8 at a concrete collaborator: a failed session
construction propagates its error, and a fully successful run returns the
parsed value. -/
theorem fetch_data_propagates_witness :
    fetch_data (Except.error 7 : Except Nat (Session Nat Nat)) "u" =
      .error 7 ∧
    fetch_data (Except.ok ⟨fun _ => .ok ⟨.ok 42⟩⟩ :
      Except Nat (Session Nat Nat)) "u" = .ok 42 :=
  ⟨(fetch_data_propagates _ "u").1 7 rfl,
   (fetch_data_propagates _ "u").2.2.2 ⟨fun _ => .ok ⟨.ok 42⟩⟩ ⟨.ok 42⟩ 42
     rfl rfl rfl⟩

/-- C9: on every exit path of `fetch_data` — success or failure of any
step — each resource that was opened is also closed: session opens equal
session closes, and response opens equal response closes, in the event
trace. -/
theorem fetch_data_releases_resources {ε κ : Type}
    (mkSession : Except ε (Session ε κ)) (url : String) :
    (fetch_dataT mkSession url).2.count Ev.openSession =
      (fetch_dataT mkSession url).2.count Ev.closeSession ∧
    (fetch_dataT mkSession url).2.count Ev.openResponse =
      (fetch_dataT mkSession url).2.count Ev.closeResponse := by
  rcases mkSession with e | s
  · simp [fetch_dataT, withScoped]
  · rcases hg : s.get url with e | r
    · simp [fetch_dataT, withScoped, hg]
      decide
    · rcases hj : r.json with e | v <;>
        · simp [fetch_dataT, withScoped, hg]
          decide

/-- C10: the arithmetic of sum, difference and product is exact unbounded
integer arithmetic — no overflow at any width; in particular it is exact
beyond 64 bits. -/
theorem arithmetic_exact (c : Calculator) (a b : Int) :
    (c.add a b).result = a + b ∧
    (c.subtract a b).result = a - b ∧
    multiply a b = a * b ∧
    (Calculator.init.add (2 ^ 100) (2 ^ 100)).result = 2 ^ 101 := by
  refine ⟨rfl, rfl, rfl, ?_⟩
  show (2 : Int) ^ 100 + 2 ^ 100 = 2 ^ 101
  ring
